import Mathlib

/-!
Verification of the TrendPlotter core (src/utils.py): the date-format
disambiguation heuristic detect_date_format and the time-series validator
is_valid_time_series.

Modelling conventions.
A column is a list of entries, where a missing (null) entry is modelled as
none, so that dropna is filterMap id.  The external date-parsing capability
(the dateutil parse calls) is abstracted as a function parameter
String → Option D into an arbitrary linearly ordered type D of timestamps
(failure = none, modelling a caught exception); a second, Except-based
oracle String → Except String D is used in the exception-explicit variants
below, where tryParse plays the role of the Python try/except wrapper.

Fractional thresholds: the Python code compares non_null_count with
len(series) * 0.8 and valid_dates / len(sample) with 0.8 in IEEE double
arithmetic.  For the integer counts involved these comparisons coincide
exactly with the rational comparisons 5 * count < 4 * len and
5 * valid >= 4 * size: the double nearest to 0.8 is 0.8 + 0.2 * 2 ^ (-52),
and the perturbation is far below a half ulp at every product or quotient
of integers of these magnitudes, except when the exact value equals the
threshold, where the rounding of 4/5 and of the literal 0.8 agree.  The
definitions therefore use the exact integer comparisons.
-/

namespace TrendPlotter

/-- A raw column entry: none models a null/missing value. -/
abbrev Column := List (Option String)

/-- pandas dropna on a column: keep the non-null entries, in order. -/
def dropna (col : Column) : List String :=
  col.filterMap id

/-- The disambiguation sample: dropna().head(50) (src/utils.py line 18). -/
def sample50 (col : Column) : List String :=
  (dropna col).take 50

/-- The validation sample: dropna().head(5) (src/utils.py line 99). -/
def sample5 (col : Column) : List String :=
  (dropna col).take 5

/-- The inner is_ordered check of detect_date_format (src/utils.py lines
50-54): scan consecutive pairs, fail when an earlier entry is strictly
greater than the next one; equal consecutive values are allowed. -/
def is_ordered {D : Type} [LinearOrder D] : List D → Bool
  | [] => true
  | [_] => true
  | a :: b :: rest => if a > b then false else is_ordered (b :: rest)

/-- The per-mode list of successfully parsed sample values with failures
dropped (src/utils.py lines 27-44): parse every sampled string and filter
out the None placeholders, keeping the original order. -/
def validSeq {D : Type} (parse : String → Option D) (col : Column) : List D :=
  (sample50 col).filterMap parse

/-- Maximal digit runs of a character list, in left-to-right order, the
accumulator holding the current run reversed: the model of
re.findall applied to the digit pattern (src/utils.py line 70). -/
def digitRunsAux : List Char → List Char → List (List Char)
  | [], acc => if acc = [] then [] else [acc.reverse]
  | c :: rest, acc =>
    if c.isDigit then digitRunsAux rest (c :: acc)
    else if acc = [] then digitRunsAux rest []
    else acc.reverse :: digitRunsAux rest []

/-- Python int() on a nonempty string of decimal digits. -/
def natOfDigits (cs : List Char) : Nat :=
  cs.foldl (fun n c => 10 * n + (c.toNat - 48)) 0

/-- All maximal digit runs of a string as numbers, left to right:
re.findall of the digit pattern followed by int() on each match. -/
def findNumbers (s : String) : List Nat :=
  (digitRunsAux s.data []).map natOfDigits

/-- One step of the numeric-token voting loop (src/utils.py lines 69-81):
given the running (dayfirst_evidence, monthfirst_evidence) pair and a
sampled string, add 2 to day-first evidence when the first number exceeds
12, else 2 to month-first evidence when the second number exceeds 12, else
1 to day-first evidence when the first number exceeds the second; strings
with fewer than two numeric tokens contribute nothing. -/
def voteStep (p : Nat × Nat) (s : String) : Nat × Nat :=
  match findNumbers s with
  | n1 :: n2 :: _ =>
    if n1 > 12 then (p.1 + 2, p.2)
    else if n2 > 12 then (p.1, p.2 + 2)
    else if n1 > n2 then (p.1 + 1, p.2)
    else p
  | _ => p

/-- Accumulated (dayfirst_evidence, monthfirst_evidence) over a sample
(src/utils.py lines 66-81). -/
def evidence (sample : List String) : Nat × Nat :=
  sample.foldl voteStep (0, 0)

/-- detect_date_format (src/utils.py lines 10-83), with the two per-mode
parsers passed explicitly: sample the first 50 non-null values; return
false when fewer than 2; return false when either mode parses nothing;
when exactly one of the two filtered parsed sequences is ordered return
the day-first-ness of that mode; otherwise fall back to numeric-token
voting and return whether day-first evidence strictly exceeds month-first
evidence. -/
def detect_date_format {D : Type} [LinearOrder D]
    (parseDF parseMF : String → Option D) (col : Column) : Bool :=
  if (sample50 col).length < 2 then false
  else if (validSeq parseDF col).isEmpty || (validSeq parseMF col).isEmpty then false
  else if is_ordered (validSeq parseDF col) && !(is_ordered (validSeq parseMF col)) then true
  else if is_ordered (validSeq parseMF col) && !(is_ordered (validSeq parseDF col)) then false
  else decide ((evidence (sample50 col)).1 > (evidence (sample50 col)).2)

/-- is_valid_time_series (src/utils.py lines 86-110), with the strict
parser passed explicitly: false on an empty column; false when the
non-null count is below 80 percent of the length; otherwise parse the
first 5 non-null values and return whether at least 80 percent of the
sample parses, guarding the ratio by the positivity of the sample size. -/
def is_valid_time_series {D : Type}
    (parseStrict : String → Option D) (col : Column) : Bool :=
  if col.length = 0 then false
  else if (dropna col).length * 5 < col.length * 4 then false
  else if 0 < (sample5 col).length then
    decide (((sample5 col).filterMap parseStrict).length * 5 ≥ (sample5 col).length * 4)
  else false

/-- The Python try/except wrapper around a parser call: an exception is
caught and becomes a None placeholder (src/utils.py lines 28-40, 102-107). -/
def tryParse {D : Type} (p : String → Except String D) (s : String) : Option D :=
  match p s with
  | .ok d => some d
  | .error _ => none

/-- The parsing loop of detect_date_format (src/utils.py lines 27-40) over
an Except-valued parser pair: each string is parsed under both modes, a
raised exception being caught and recorded as None in that mode's result
list. -/
def parseLoopE {D : Type} (pDF pMF : String → Except String D) :
    List String → List (Option D) × List (Option D)
  | [] => ([], [])
  | s :: rest =>
    let d : Option D := match pDF s with | .ok v => some v | .error _ => none
    let m : Option D := match pMF s with | .ok v => some v | .error _ => none
    ((d :: (parseLoopE pDF pMF rest).1), (m :: (parseLoopE pDF pMF rest).2))

/-- detect_date_format with the exception structure made explicit: the
parsers may raise (Except), every raise is caught by the loop, and the
function body itself contains no fallible operation, so the result is
always an ok boolean. -/
def detect_date_formatE {D : Type} [LinearOrder D]
    (pDF pMF : String → Except String D) (col : Column) : Except String Bool :=
  if (sample50 col).length < 2 then .ok false
  else
    let dfv := (parseLoopE pDF pMF (sample50 col)).1.filterMap id
    let mfv := (parseLoopE pDF pMF (sample50 col)).2.filterMap id
    if dfv.isEmpty || mfv.isEmpty then .ok false
    else if is_ordered dfv && !(is_ordered mfv) then .ok true
    else if is_ordered mfv && !(is_ordered dfv) then .ok false
    else .ok (decide ((evidence (sample50 col)).1 > (evidence (sample50 col)).2))

/-- The final ratio of is_valid_time_series with the ZeroDivisionError of
Python division made explicit (src/utils.py line 110). -/
def ratioGeE (num den : Nat) : Except String Bool :=
  if den = 0 then .error "ZeroDivisionError"
  else .ok (decide (num * 5 ≥ den * 4))

/-- is_valid_time_series with the exception structure made explicit: the
strict parser may raise and every raise is caught by tryParse; the only
other fallible operation is the final ratio division, guarded by the
positivity check on the sample size. -/
def is_valid_time_seriesE {D : Type}
    (p : String → Except String D) (col : Column) : Except String Bool :=
  if col.length = 0 then .ok false
  else if (dropna col).length * 5 < col.length * 4 then .ok false
  else if 0 < (sample5 col).length then
    ratioGeE ((sample5 col).filterMap (tryParse p)).length (sample5 col).length
  else .ok false

/-! ### Helper lemmas -/

lemma isEmpty_eq_false_of_ne_nil {α : Type} {l : List α} (h : l ≠ []) :
    l.isEmpty = false := by
  cases l with
  | nil => exact absurd rfl h
  | cons a t => rfl

lemma sample50_not_short {col : Column} (h : 2 ≤ (dropna col).length) :
    ¬ (sample50 col).length < 2 := by
  simp only [sample50, List.length_take]
  omega

lemma is_ordered_of_length_one {D : Type} [LinearOrder D] {l : List D}
    (h : l.length = 1) : is_ordered l = true := by
  match l, h with
  | [a], _ => rfl

lemma two_le_length_of_not_ordered {D : Type} [LinearOrder D] {l : List D}
    (h : is_ordered l = false) : 2 ≤ l.length := by
  match l with
  | [] => simp [is_ordered] at h
  | [a] => simp [is_ordered] at h
  | a :: b :: t => simp only [List.length_cons]; omega

lemma length_validSeq_le_dropna {D : Type} (p : String → Option D) (col : Column) :
    (validSeq p col).length ≤ (dropna col).length := by
  calc (validSeq p col).length ≤ (sample50 col).length :=
        List.length_filterMap_le _ _
    _ ≤ (dropna col).length := by
        simp only [sample50, List.length_take]; omega

/-- Tier-1 content: when the sample has at least 2 entries, both per-mode
valid sequences are nonempty, and exactly one of them is ordered, the
verdict is the orderedness of the day-first sequence. -/
lemma detect_tier1 {D : Type} [LinearOrder D]
    (pDF pMF : String → Option D) (col : Column)
    (h2 : 2 ≤ (dropna col).length)
    (hd : validSeq pDF col ≠ []) (hm : validSeq pMF col ≠ [])
    (hx : is_ordered (validSeq pDF col) ≠ is_ordered (validSeq pMF col)) :
    detect_date_format pDF pMF col = is_ordered (validSeq pDF col) := by
  unfold detect_date_format
  rw [if_neg (sample50_not_short h2),
    isEmpty_eq_false_of_ne_nil hd, isEmpty_eq_false_of_ne_nil hm]
  cases hdo : is_ordered (validSeq pDF col) <;>
    cases hmo : is_ordered (validSeq pMF col) <;>
    simp_all

/-- Tier-3 content: when the sample has at least 2 entries, both per-mode
valid sequences are nonempty, and the two orderedness flags agree, the
verdict is the numeric-token evidence comparison. -/
lemma detect_tier3 {D : Type} [LinearOrder D]
    (pDF pMF : String → Option D) (col : Column)
    (h2 : 2 ≤ (dropna col).length)
    (hd : validSeq pDF col ≠ []) (hm : validSeq pMF col ≠ [])
    (he : is_ordered (validSeq pDF col) = is_ordered (validSeq pMF col)) :
    detect_date_format pDF pMF col
      = decide ((evidence (sample50 col)).1 > (evidence (sample50 col)).2) := by
  unfold detect_date_format
  rw [if_neg (sample50_not_short h2),
    isEmpty_eq_false_of_ne_nil hd, isEmpty_eq_false_of_ne_nil hm]
  cases hdo : is_ordered (validSeq pDF col) <;>
    cases hmo : is_ordered (validSeq pMF col) <;>
    simp_all

/-! ### Claim theorems -/

/-- Claim C2: for a column with at least 2 non-null entries where both
parse modes yield at least one valid entry, if exactly one of the two
parsed sequences (failures dropped, order kept) is ordered, then
detect_date_format returns true when the day-first sequence is the ordered
one and false when the month-first sequence is the ordered one: the
verdict equals the orderedness flag of the day-first sequence. -/
theorem detect_single_ordered_mode {D : Type} [LinearOrder D]
    (pDF pMF : String → Option D) (col : Column)
    (h2 : 2 ≤ (dropna col).length)
    (hd : validSeq pDF col ≠ []) (hm : validSeq pMF col ≠ [])
    (hx : is_ordered (validSeq pDF col) ≠ is_ordered (validSeq pMF col)) :
    detect_date_format pDF pMF col = is_ordered (validSeq pDF col) :=
  detect_tier1 pDF pMF col h2 hd hm hx

/-- Concrete run of the tier-1 theorem: the column 02/01/2023, 01/02/2023
with parser values as dateutil yields them (encoded yyyymmdd) is ordered
only under day-first reading, so the verdict is day-first. -/
def colC2 : Column := [some "02/01/2023", some "01/02/2023"]

def pDFw : String → Option Int := fun s =>
  if s = "02/01/2023" then some 20230102
  else if s = "01/02/2023" then some 20230201 else none

def pMFw : String → Option Int := fun s =>
  if s = "02/01/2023" then some 20230201
  else if s = "01/02/2023" then some 20230102 else none

theorem detect_single_ordered_mode_witness :
    detect_date_format pDFw pMFw colC2 = true :=
  (detect_single_ordered_mode pDFw pMFw colC2 (by decide) (by decide)
    (by decide) (by decide)).trans (by decide)

/-- Claim C3: whenever detect_date_format reaches the numeric-token tier
(both per-mode sequences nonempty and their orderedness flags equal), the
verdict is true iff the accumulated day-first evidence strictly exceeds
the month-first evidence, the evidence being the fold of voteStep (2
points day-first when the first number exceeds 12, else 2 points
month-first when the second does, else 1 point day-first when the first
number exceeds the second) over the sample; in particular ties give
false. -/
theorem detect_vote_tier {D : Type} [LinearOrder D]
    (pDF pMF : String → Option D) (col : Column)
    (h2 : 2 ≤ (dropna col).length)
    (hd : validSeq pDF col ≠ []) (hm : validSeq pMF col ≠ [])
    (he : is_ordered (validSeq pDF col) = is_ordered (validSeq pMF col)) :
    detect_date_format pDF pMF col
      = decide ((evidence (sample50 col)).1 > (evidence (sample50 col)).2) :=
  detect_tier3 pDF pMF col h2 hd hm he

/-- Concrete run of the voting-tier theorem: 15/01/2023, 16/01/2023 parses
to the same ordered values under both modes, and the first numeric tokens
15 and 16 exceed 12, so day-first wins the vote. -/
def colC3 : Column := [some "15/01/2023", some "16/01/2023"]

def pBoth3 : String → Option Int := fun s =>
  if s = "15/01/2023" then some 20230115
  else if s = "16/01/2023" then some 20230116 else none

theorem detect_vote_tier_witness :
    detect_date_format pBoth3 pBoth3 colC3 = true :=
  (detect_vote_tier pBoth3 pBoth3 colC3 (by decide) (by decide)
    (by decide) (by decide)).trans (by decide)

/-- Claim C6: a column with fewer than 2 non-null entries gives the
month-first default false. -/
theorem detect_default_insufficient {D : Type} [LinearOrder D]
    (pDF pMF : String → Option D) (col : Column)
    (h : (dropna col).length < 2) :
    detect_date_format pDF pMF col = false := by
  unfold detect_date_format
  have hs : (sample50 col).length < 2 := by
    simp only [sample50, List.length_take]; omega
  rw [if_pos hs]

def pZero : String → Option Int := fun _ => some 0

theorem detect_default_insufficient_witness :
    detect_date_format pZero pZero [some "2023-01-01"] = false :=
  detect_default_insufficient pZero pZero [some "2023-01-01"] (by decide)

/-- Claim C10: a parse mode with exactly one valid entry yields a
one-element sequence that is vacuously ordered, so when the day-first
valid sequence has length 1 and the month-first valid sequence is
nonempty and out of order the verdict is true, and symmetrically false
with the roles swapped. -/
theorem detect_singleton_point {D : Type} [LinearOrder D]
    (pDF pMF : String → Option D) (col : Column) :
    ((validSeq pDF col).length = 1 → validSeq pMF col ≠ [] →
      is_ordered (validSeq pMF col) = false →
      detect_date_format pDF pMF col = true)
    ∧ ((validSeq pMF col).length = 1 → validSeq pDF col ≠ [] →
      is_ordered (validSeq pDF col) = false →
      detect_date_format pDF pMF col = false) := by
  constructor
  · intro h1 hm hmo
    have h2 : 2 ≤ (dropna col).length :=
      le_trans (two_le_length_of_not_ordered hmo) (length_validSeq_le_dropna pMF col)
    have hdo : is_ordered (validSeq pDF col) = true := is_ordered_of_length_one h1
    have hd : validSeq pDF col ≠ [] := by
      intro hnil; rw [hnil] at h1; simp at h1
    rw [detect_tier1 pDF pMF col h2 hd hm (by rw [hdo, hmo]; simp), hdo]
  · intro h1 hd hdo
    have h2 : 2 ≤ (dropna col).length :=
      le_trans (two_le_length_of_not_ordered hdo) (length_validSeq_le_dropna pDF col)
    have hm : validSeq pMF col ≠ [] := by
      intro hnil; rw [hnil] at h1; simp at h1
    rw [detect_tier1 pDF pMF col h2 hd hm
      (by rw [hdo, is_ordered_of_length_one h1]; simp), hdo]

/-- Concrete run of the singleton-point theorem: only the first entry
parses day-first, all three parse month-first but out of order, so the
single day-first data point decides day-first. -/
def colC10 : Column := [some "x1", some "x2", some "x3"]

def pD10 : String → Option Int := fun s => if s = "x1" then some 5 else none

def pM10 : String → Option Int := fun s =>
  if s = "x1" then some 9 else if s = "x2" then some 3
  else if s = "x3" then some 7 else none

theorem detect_singleton_point_witness :
    detect_date_format pD10 pM10 colC10 = true :=
  (detect_singleton_point pD10 pM10 colC10).1 (by decide) (by decide) (by decide)

/-- Counterexample to claim C1 as stated: on a column of two strings that
no parser accepts (both per-mode valid sequences empty), the function
returns false, while the numeric-token voting comparison the claim says
would determine the verdict evaluates to true (day-first evidence 4,
month-first 0). -/
def colC1 : Column := [some "a 15 b 3", some "a 14 b 2"]

def pNone : String → Option Int := fun _ => none

theorem detect_no_vote_fallback_counterexample :
    detect_date_format pNone pNone colC1 = false
    ∧ decide ((evidence (sample50 colC1)).1 > (evidence (sample50 colC1)).2) = true := by
  decide

/-- Claim C1 amended: for a column with at least 2 non-null entries where
at least one parse mode yields zero valid entries, detect_date_format
returns the month-first default false immediately, without consulting the
numeric-token voting heuristic. -/
theorem detect_empty_mode_default {D : Type} [LinearOrder D]
    (pDF pMF : String → Option D) (col : Column)
    (h2 : 2 ≤ (dropna col).length)
    (h : validSeq pDF col = [] ∨ validSeq pMF col = []) :
    detect_date_format pDF pMF col = false := by
  unfold detect_date_format
  rw [if_neg (sample50_not_short h2)]
  have hcond : ((validSeq pDF col).isEmpty || (validSeq pMF col).isEmpty) = true := by
    rcases h with h | h <;> rw [h] <;> simp
  rw [hcond]
  rfl

theorem detect_empty_mode_default_witness :
    detect_date_format pNone pNone colC1 = false :=
  detect_empty_mode_default pNone pNone colC1 (by decide) (Or.inl (by decide))

/-- Claim C7: the empty column is not a valid time series. -/
theorem valid_empty_col {D : Type} (p : String → Option D) :
    is_valid_time_series p ([] : Column) = false :=
  rfl

/-- Claim C5: a non-empty column whose non-null count is below 80 percent
of its length is rejected, whatever the parser does (so no parse outcome
is consulted). -/
theorem valid_reject_low_fill {D : Type} (p : String → Option D) (col : Column)
    (h0 : col ≠ [])
    (h : (dropna col).length * 5 < col.length * 4) :
    is_valid_time_series p col = false := by
  have hl : ¬ col.length = 0 := by
    simpa [List.length_eq_zero] using h0
  unfold is_valid_time_series
  rw [if_neg hl, if_pos h]

/-- Concrete run of the low-fill rejection: 100 entries of which 79 are
non-null (79 percent) give false even though every non-null entry would
parse. -/
def colC5 : Column :=
  List.replicate 79 (some "2023-01-01") ++ List.replicate 21 none

theorem valid_reject_low_fill_witness :
    is_valid_time_series pZero colC5 = false :=
  valid_reject_low_fill pZero colC5 (by decide) (by decide)

/-- Claim C4: a non-empty column passing the 80 percent fill check is
judged by the first 5 non-null entries: the verdict is exactly whether
the number of entries the strict parser accepts is at least 80 percent of
the sample size. -/
theorem valid_sample_ratio {D : Type} (p : String → Option D) (col : Column)
    (h0 : col ≠ [])
    (h80 : col.length * 4 ≤ (dropna col).length * 5) :
    is_valid_time_series p col
      = decide (((sample5 col).filterMap p).length * 5 ≥ (sample5 col).length * 4) := by
  have hl : ¬ col.length = 0 := by
    simpa [List.length_eq_zero] using h0
  unfold is_valid_time_series
  rw [if_neg hl, if_neg (by omega)]
  have hpos : 0 < (sample5 col).length := by
    have h1 : 1 ≤ col.length := Nat.pos_of_ne_zero hl
    have hnn : 1 ≤ (dropna col).length := by omega
    simp only [sample5, List.length_take]
    omega
  rw [if_pos hpos]

theorem valid_sample_ratio_witness :
    is_valid_time_series pZero [some "2023-01-01"] = true :=
  (valid_sample_ratio pZero [some "2023-01-01"] (by decide) (by decide)).trans
    (by decide)

lemma parseLoopE_eq {D : Type} (pDF pMF : String → Except String D)
    (l : List String) :
    parseLoopE pDF pMF l = (l.map (tryParse pDF), l.map (tryParse pMF)) := by
  induction l with
  | nil => rfl
  | cons s rest ih => simp [parseLoopE, ih, tryParse]

/-- Claim C8: both functions are total and never raise: with the parsers
modelled as fallible (Except-valued) and the exception flow made explicit,
each exception-explicit variant returns ok of exactly the boolean the pure
function computes when every caught parser exception is absorbed as a
parse failure. -/
theorem core_totality {D : Type} [LinearOrder D]
    (pDF pMF pS : String → Except String D) (col : Column) :
    detect_date_formatE pDF pMF col
      = Except.ok (detect_date_format (tryParse pDF) (tryParse pMF) col)
    ∧ is_valid_time_seriesE pS col
      = Except.ok (is_valid_time_series (tryParse pS) col) := by
  constructor
  · unfold detect_date_formatE detect_date_format
    rw [parseLoopE_eq]
    simp only [validSeq, List.filterMap_map, Function.id_comp]
    split_ifs <;> rfl
  · unfold is_valid_time_seriesE is_valid_time_series ratioGeE
    split_ifs with h1 h2 h3 h4 <;> first | rfl | omega

/-- Claim C9: when the non-null sample of the validator is empty the
verdict is false, and the exception-explicit variant returns ok false, so
the ZeroDivisionError branch of the final ratio is not taken. -/
theorem valid_empty_sample {D : Type} (p : String → Except String D)
    (col : Column) (h : sample5 col = []) :
    is_valid_time_series (tryParse p) col = false
    ∧ is_valid_time_seriesE p col = Except.ok false := by
  have hdrop : dropna col = [] := by
    simp only [sample5, List.take_eq_nil_iff] at h
    rcases h with h | h
    · exact absurd h (by decide)
    · exact h
  have hnn : (dropna col).length = 0 := by rw [hdrop]; rfl
  by_cases h0 : col.length = 0
  · constructor <;> [unfold is_valid_time_series; unfold is_valid_time_seriesE] <;>
      rw [if_pos h0]
  · have hlt : (dropna col).length * 5 < col.length * 4 := by
      have : 1 ≤ col.length := Nat.pos_of_ne_zero h0
      omega
    constructor <;> [unfold is_valid_time_series; unfold is_valid_time_seriesE] <;>
      rw [if_neg h0, if_pos hlt]

def pErr : String → Except String Int := fun _ => Except.error "ParserError"

theorem valid_empty_sample_witness :
    is_valid_time_series (tryParse pErr) [(none : Option String)] = false
    ∧ is_valid_time_seriesE pErr [(none : Option String)] = Except.ok false :=
  valid_empty_sample pErr [(none : Option String)] (by decide)

end TrendPlotter
